import Mathlib

/-!
# Verification of the hpc-grouper-client request/response marshalling
# and authenticated-transport layer

Shallow embedding of `src/grouper_client/models.py`,
`src/grouper_client/abstract_client.py` and
`src/grouper_client/grouper_client.py`.

Conventions:
* Python dicts are ordered association lists; `dict.update` / key
  assignment replaces the value of an existing key in place and appends
  new keys at the end.
* Python strings appearing in `extract_username` are modelled as
  `List Char` so that slicing (`s[a:b]`) is `drop`/`take`.
* Exceptions are modelled by `Except PyErr`.
* The HTTP environment is a list of responses consumed in order, one
  per issued request; decoded JSON bodies are opaque `String`s at the
  transport layer.
-/

/-- Python exception kinds raised by the code under verification.
`validationError` is pydantic's `ValidationError`, `http` is
`requests.exceptions.HTTPError` (carrying status and decoded body),
`nameError` is Python's `NameError` for an unbound name. -/
inductive PyErr where
  | validationError (msg : String)
  | valueError (msg : String)
  | http (status : Nat) (body : String)
  | nameError (nm : String)
  | noResponse
deriving DecidableEq

/-- JSON values, used for the serialized (`model_dump`) form of the
pydantic request envelopes in `models.py`. -/
inductive Json where
  | str (s : String)
  | num (n : Int)
  | boolean (b : Bool)
  | arr (xs : List Json)
  | obj (kvs : List (String × Json))
  | null

/-- The `'T' if value else 'F'` body shared by every `field_serializer`
in `models.py` (`serialize_enabled`, `serialize_ascending`,
`serialize_include_group_detail`, `serialize_include_subject_detail`,
`serialize_replace_all_existing`). -/
def serializeBool (b : Bool) : String :=
  if b then "T" else "F"

/-- A field of a `model_dump(exclude_unset=True)`: present exactly when
the caller set it.  The client never sets an optional field to an
explicit `None`, so "set" coincides with `some`. -/
def optField (k : String) (v : Option Json) : List (String × Json) :=
  match v with
  | some j => [(k, j)]
  | none => []

/-- Key lookup inside a serialized JSON object. -/
def jGet (k : String) : Json → Option Json
  | .obj kvs => (kvs.find? (fun p => p.1 == k)).map (fun p => p.2)
  | _ => none

/-- Python truthiness of an `Optional[str]` value: `None` and the empty
string are falsy. -/
def pyTruthy : Option String → Bool
  | none => false
  | some s => !(s == "")

/-- `models.py` `SubjectLookup`: two optional fields, no
`model_config`. -/
structure SubjectLookup where
  subjectIdentifier : Option String
  subjectId : Option String
deriving DecidableEq

/-- Construction of a `SubjectLookup`, including its
`model_validator(mode='after')` `check_fields`:
`if not (self.subjectIdentifier or self.subjectId): raise ValueError`.
pydantic surfaces the raised `ValueError` as a `ValidationError`. -/
def mkSubjectLookup (subjectIdentifier subjectId : Option String) :
    Except PyErr SubjectLookup :=
  if pyTruthy subjectIdentifier || pyTruthy subjectId then
    .ok ⟨subjectIdentifier, subjectId⟩
  else
    .error (.validationError "Either subjectIdentifier or subjectId must be provided")

/-- `model_dump(exclude_unset=True)` of a `SubjectLookup`: each field
is emitted exactly when it was set. -/
def SubjectLookup.dump (l : SubjectLookup) : List (String × Json) :=
  optField "subjectIdentifier" (l.subjectIdentifier.map Json.str) ++
  optField "subjectId" (l.subjectId.map Json.str)

/-- `models.py` `WsGroupLookup` (a `TypedDict` with one required key). -/
structure WsGroupLookup where
  groupName : String
deriving DecidableEq

/-- Serialized form of a `WsGroupLookup`. -/
def WsGroupLookup.dump (g : WsGroupLookup) : List (String × Json) :=
  [("groupName", Json.str g.groupName)]

/-- `models.py` `WsQueryFilter`.  `typeOfGroups` is
`Literal['group'] = 'group'`; under `exclude_unset` it is emitted only
when the caller passed it, which `typeOfGroupsSet` records.  Every
other optional field is `none` when unset. -/
structure WsQueryFilter where
  typeOfGroupsSet : Bool := false
  pageSize : Option Nat := none
  pageNumber : Option Nat := none
  sortString : Option String := none
  ascending : Option Bool := none
  queryFilterType : String
  stemName : Option String := none
  stemNameScope : Option String := none
  enabled : Option Bool := none
  groupName : Option String := none

/-- `model_dump(exclude_unset=True)` of a `WsQueryFilter`, in pydantic
field-declaration order; `enabled` and `ascending` go through their
`field_serializer`s (`serializeBool`). -/
def WsQueryFilter.dump (f : WsQueryFilter) : List (String × Json) :=
  optField "typeOfGroups" (if f.typeOfGroupsSet then some (Json.str "group") else none) ++
  optField "pageSize" (f.pageSize.map (fun n => Json.num n)) ++
  optField "pageNumber" (f.pageNumber.map (fun n => Json.num n)) ++
  optField "sortString" (f.sortString.map Json.str) ++
  optField "ascending" (f.ascending.map (fun b => Json.str (serializeBool b))) ++
  [("queryFilterType", Json.str f.queryFilterType)] ++
  optField "stemName" (f.stemName.map Json.str) ++
  optField "stemNameScope" (f.stemNameScope.map Json.str) ++
  optField "enabled" (f.enabled.map (fun b => Json.str (serializeBool b))) ++
  optField "groupName" (f.groupName.map Json.str)

/-- `models.py` `WsRestFindGroupsRequest`. -/
structure WsRestFindGroupsRequest where
  wsQueryFilter : WsQueryFilter
  includeGroupDetail : Option Bool := none

/-- Serialized `WsRestFindGroupsRequest`; `includeGroupDetail` goes
through `serialize_include_group_detail`. -/
def WsRestFindGroupsRequest.dump (r : WsRestFindGroupsRequest) : List (String × Json) :=
  [("wsQueryFilter", Json.obj r.wsQueryFilter.dump)] ++
  optField "includeGroupDetail" (r.includeGroupDetail.map (fun b => Json.str (serializeBool b)))

/-- `models.py` `WsRestGetMembersRequest`. -/
structure WsRestGetMembersRequest where
  includeSubjectDetail : Bool
  wsGroupLookups : List WsGroupLookup

/-- Serialized `WsRestGetMembersRequest`; `includeSubjectDetail` goes
through `serialize_include_subject_detail`. -/
def WsRestGetMembersRequest.dump (r : WsRestGetMembersRequest) : List (String × Json) :=
  [("includeSubjectDetail", Json.str (serializeBool r.includeSubjectDetail)),
   ("wsGroupLookups", Json.arr (r.wsGroupLookups.map (fun g => Json.obj g.dump)))]

/-- `models.py` `WsRestAddMemberRequest`. -/
structure WsRestAddMemberRequest where
  wsGroupLookup : WsGroupLookup
  subjectLookups : List SubjectLookup
  replaceAllExisting : Bool

/-- Serialized `WsRestAddMemberRequest`; `replaceAllExisting` goes
through `serialize_replace_all_existing`. -/
def WsRestAddMemberRequest.dump (r : WsRestAddMemberRequest) : List (String × Json) :=
  [("wsGroupLookup", Json.obj r.wsGroupLookup.dump),
   ("subjectLookups", Json.arr (r.subjectLookups.map (fun l => Json.obj l.dump))),
   ("replaceAllExisting", Json.str (serializeBool r.replaceAllExisting))]

/-- `models.py` `WsRestGetSubjectsRequest`. -/
structure WsRestGetSubjectsRequest where
  includeSubjectDetail : Bool
  wsSubjectLookups : List SubjectLookup

/-- Serialized `WsRestGetSubjectsRequest`. -/
def WsRestGetSubjectsRequest.dump (r : WsRestGetSubjectsRequest) : List (String × Json) :=
  [("includeSubjectDetail", Json.str (serializeBool r.includeSubjectDetail)),
   ("wsSubjectLookups", Json.arr (r.wsSubjectLookups.map (fun l => Json.obj l.dump)))]

/-- `GrouperClient.get_qualified_groupname`:
`f"{self.stem}:{group_name}"`. -/
def get_qualified_groupname (stem group_name : String) : String :=
  stem ++ ":" ++ group_name

/-- The payload built by `GrouperClient.add_members_to_group`
(grouper_client.py lines 246-253): an `AddMembersRequest` wrapping a
`WsRestAddMemberRequest` with the qualified group name, one
`{"subjectIdentifier": m}` lookup per member, and
`replaceAllExisting=False`, serialized with
`model_dump(exclude_unset=True)`. -/
def add_members_to_group_payload (stem group_name : String) (member_uids : List String) :
    Except PyErr Json := do
  let lookups ← member_uids.mapM (fun m => mkSubjectLookup (some m) none)
  let req : WsRestAddMemberRequest :=
    { wsGroupLookup := { groupName := get_qualified_groupname stem group_name }
      subjectLookups := lookups
      replaceAllExisting := false }
  return Json.obj [("WsRestAddMemberRequest", Json.obj req.dump)]

/-- The payload built by `GrouperClient.get_users_by_username`
(grouper_client.py lines 375-379): a `GetUsersRequest` wrapping a
`WsRestGetSubjectsRequest` with one `{"subjectIdentifier": m}` lookup
per member. -/
def get_users_by_username_payload (member_uids : List String) :
    Except PyErr Json := do
  let lookups ← member_uids.mapM (fun m => mkSubjectLookup (some m) none)
  let req : WsRestGetSubjectsRequest :=
    { includeSubjectDetail := true, wsSubjectLookups := lookups }
  return Json.obj [("WsRestGetSubjectsRequest", Json.obj req.dump)]

/-- The payload built by `GrouperClient.get_users_by_id`
(grouper_client.py lines 342-346): one `{"subjectId": m}` lookup per
member. -/
def get_users_by_id_payload (member_ids : List String) :
    Except PyErr Json := do
  let lookups ← member_ids.mapM (fun m => mkSubjectLookup none (some m))
  let req : WsRestGetSubjectsRequest :=
    { includeSubjectDetail := true, wsSubjectLookups := lookups }
  return Json.obj [("WsRestGetSubjectsRequest", Json.obj req.dump)]

/-! ## Extra-field policy of the pydantic models (`model_config`) -/

/-- pydantic's handling of fields outside a model's declared field set:
`extra='forbid'` raises a `ValidationError`, while the default
(`'ignore'`, used when a class declares no `model_config`) accepts and
silently drops them. -/
inductive ExtraPolicy where
  | forbid
  | ignore
deriving DecidableEq

/-- A pydantic model's declared field names and its `extra` policy,
read off one class of `models.py`. -/
structure ModelFields where
  name : String
  declared : List String
  extra : ExtraPolicy
deriving DecidableEq

/-- The pydantic models of `models.py` with their `model_config`.
Every class declares `ConfigDict(extra='forbid', ...)` except
`SubjectLookup`, which has no `model_config` at all and therefore uses
pydantic's default `extra='ignore'`.  (`WsGroupLookup`, `WsGroup` and
`WsGroupToSave` are `TypedDict`s, not pydantic models, and are not
listed.) -/
def modelsOfModule : List ModelFields :=
  [⟨"WsQueryFilter",
    ["typeOfGroups", "pageSize", "pageNumber", "sortString", "ascending",
     "queryFilterType", "stemName", "stemNameScope", "enabled", "groupName"], .forbid⟩,
   ⟨"WsRestFindGroupsRequest", ["wsQueryFilter", "includeGroupDetail"], .forbid⟩,
   ⟨"FindGroupsRequest", ["WsRestFindGroupsRequest"], .forbid⟩,
   ⟨"SubjectLookup", ["subjectIdentifier", "subjectId"], .ignore⟩,
   ⟨"WsRestGetGroupsRequest", ["subjectLookups", "subjectAttributeNames"], .forbid⟩,
   ⟨"GetGroupsForUserRequest", ["WsRestGetGroupsRequest"], .forbid⟩,
   ⟨"WsRestGetMembersRequest", ["includeSubjectDetail", "wsGroupLookups"], .forbid⟩,
   ⟨"GetGroupMembersRequest", ["WsRestGetMembersRequest"], .forbid⟩,
   ⟨"WsRestAddMemberRequest", ["wsGroupLookup", "subjectLookups", "replaceAllExisting"], .forbid⟩,
   ⟨"AddMembersRequest", ["WsRestAddMemberRequest"], .forbid⟩,
   ⟨"WsRestDeleteMemberRequest", ["wsGroupLookup", "subjectLookups"], .forbid⟩,
   ⟨"RemoveMembersRequest", ["WsRestDeleteMemberRequest"], .forbid⟩,
   ⟨"WsRestGetSubjectsRequest", ["includeSubjectDetail", "wsSubjectLookups"], .forbid⟩,
   ⟨"GetUsersRequest", ["WsRestGetSubjectsRequest"], .forbid⟩,
   ⟨"WsRestGroupSaveRequest", ["wsGroupToSaves"], .forbid⟩,
   ⟨"SaveGroupRequest", ["WsRestGroupSaveRequest"], .forbid⟩,
   ⟨"WsRestGroupDeleteRequest", ["wsGroupLookups"], .forbid⟩,
   ⟨"DeleteGroupRequest", ["WsRestGroupDeleteRequest"], .forbid⟩]

/-- pydantic's treatment of the keyword set a caller passes to a model
constructor, restricted to the extra-field aspect: under
`extra='forbid'` any key outside the declared field set raises a
`ValidationError`; under the default `extra='ignore'` construction
succeeds and only declared keys are retained for serialization. -/
def validateKeys (m : ModelFields) (keys : List String) :
    Except PyErr (List String) :=
  match m.extra with
  | .forbid =>
      if keys.all (fun k => m.declared.contains k) then .ok keys
      else .error (.validationError "Extra inputs are not permitted")
  | .ignore => .ok (keys.filter (fun k => m.declared.contains k))

/-! ## `GrouperClient.extract_username` (grouper_client.py lines 314-332)

Python strings are modelled as `List Char`; `s.find(c)` is the index of
the first occurrence, and the slice `s[a:b]` is `(s.drop a).take (b - a)`
(for the in-bounds, non-negative indices that occur here, where
Python's empty-slice behaviour for `b <= a` coincides with truncated
subtraction). -/

/-- The slice `s[s.find("(")+1 : s.find(")")]` of `extract_username`. -/
def parenSlice (s : List Char) : List Char :=
  let i := s.findIdx (fun c => c == '(')
  let j := s.findIdx (fun c => c == ')')
  (s.drop (i + 1)).take (j - (i + 1))

/-- The `for s in subject_attributes` loop of `extract_username`:
skip elements without both parentheses, extract the slice between the
first `(` and the first `)`, return it if longer than 2 characters,
otherwise keep scanning; `None` when the loop finishes. -/
def extractLoop : List (List Char) → Option (List Char)
  | [] => none
  | s :: rest =>
    if s.contains '(' && s.contains ')' then
      let result := parenSlice s
      if result.length > 2 then some result else extractLoop rest
    else extractLoop rest

/-- `GrouperClient.extract_username`. -/
def extract_username (subject_attributes : Option (List (List Char))) :
    Option (List Char) :=
  match subject_attributes with
  | none => none
  | some l => extractLoop l

/-! ## User-resolution pipeline (grouper_client.py lines 334-385) -/

/-- One element of the `wsSubjects` array of a
`WsGetSubjectsResults` response: the fields the client reads. -/
structure WsSubject where
  id : String
  resultCode : String
  attributeValues : Option (List (List Char))

/-- Insertion into a Python dict built by a comprehension: an existing
key's value is replaced in place, a new key is appended. -/
def pyDictSet {α : Type} (d : List (String × α)) (k : String) (v : α) :
    List (String × α) :=
  if d.any (fun p => p.1 == k) then
    d.map (fun p => if p.1 == k then (k, v) else p)
  else
    d ++ [(k, v)]

/-- `dict.update(other)`: fold `pyDictSet` over the other dict. -/
def pyDictUpdate {α : Type} (d other : List (String × α)) :
    List (String × α) :=
  other.foldl (fun acc p => pyDictSet acc p.1 p.2) d

/-- Python dict lookup `d[k]` / `d.get(k)` as an `Option`. -/
def pyDictGet {α : Type} (d : List (String × α)) (k : String) : Option α :=
  (d.find? (fun p => p.1 == k)).map (fun p => p.2)

/-- `GrouperClient.__handle_get_users_response`: the dict comprehension
over `response['WsGetSubjectsResults']['wsSubjects']` keeping the
subjects whose `resultCode` is `'SUCCESS'`, keyed by `id` with
`extract_username(attributeValues)` as value. -/
def handle_get_users_response (wsSubjects : List WsSubject) :
    List (String × Option (List Char)) :=
  wsSubjects.foldl
    (fun acc i =>
      if i.resultCode == "SUCCESS" then
        pyDictSet acc i.id (extract_username i.attributeValues)
      else acc)
    []

/-- `GrouperClient.__extract_and_validate_users_found`
(grouper_client.py lines 362-365): raise `ValueError` when the number
of resolved subjects differs from the number requested, otherwise
return the dict's values. -/
def extract_and_validate_users_found
    (subject_list : List (String × Option (List Char)))
    (member_ids : List String) :
    Except PyErr (List (Option (List Char))) :=
  if subject_list.length != member_ids.length then
    .error (.valueError "Not all members were found in grouper")
  else
    .ok (subject_list.map (fun p => p.2))

/-- `GrouperClient.get_users_by_id`, from validated payload
construction through response handling.  The transport is abstracted
by the `wsSubjects` array of the (successful) response. -/
def get_users_by_id (member_ids : List String) (wsSubjects : List WsSubject) :
    Except PyErr (List (Option (List Char))) := do
  let _payload ← get_users_by_id_payload member_ids
  let subject_list := handle_get_users_response wsSubjects
  extract_and_validate_users_found subject_list member_ids

/-- `GrouperClient.get_users_by_username`, from validated payload
construction through response handling.  Line 383 of
grouper_client.py compares `len(subject_list.items())` against
`len(member_ids)`, but the function's parameter is `member_uids` and no
binding named `member_ids` exists in any enclosing scope, so Python
raises `NameError: name 'member_ids' is not defined` on every call that
reaches this line — regardless of how many subjects were resolved. -/
def get_users_by_username (member_uids : List String) (wsSubjects : List WsSubject) :
    Except PyErr (List String) := do
  let _payload ← get_users_by_username_payload member_uids
  let _subject_list := handle_get_users_response wsSubjects
  Except.error (.nameError "member_ids")

/-! ## Authenticated transport (`abstract_client.py`)

The HTTP environment is modelled as a list of responses consumed in
order, one per issued request.  The client's mutable fields
(`self.token`, `self.refresh_token`) live in `ClientState`; the fresh
tokens minted by successive `renew_token` calls (each builds a new JWT
from the current timestamp) are abstracted by the supply
`mint : Nat → String`, the `n`-th renewal producing `mint n`. -/

/-- Header dictionaries (ordered, as Python dicts are). -/
abbrev Dict := List (String × String)

/-- One HTTP response supplied by the environment: status code and
decoded JSON body. -/
structure HttpResp where
  status : Nat
  body : String

/-- The mutable state of an `AbstractClient` / `GrouperClient`:
`token` and `refresh_token` fields, plus the renewal count and the
abstract fresh-token supply. -/
structure ClientState where
  token : Option String
  refreshToken : Option String
  renewCount : Nat
  mint : Nat → String

/-- `GrouperClient.renew_token`: mints a fresh bearer token (in the
source, `jwtUser_<entity-id>_<jwt signed over the current timestamp>`;
here the `renewCount`-th element of the abstract supply) and stores it
in `self.token`.  The `refresh_token` argument is ignored by the
source implementation. -/
def renew (st : ClientState) : ClientState :=
  { st with token := some (st.mint st.renewCount), renewCount := st.renewCount + 1 }

/-- `f'Bearer {self.token}'`: Python interpolates `None` as the string
`"None"`. -/
def tokenRepr : Option String → String
  | none => "None"
  | some t => t

/-- `AbstractClient._get_headers` (abstract_client.py lines 19-27):
start from `{'Accept': 'application/json'}`, add the `Authorization`
header unless `skip_auth`, then merge the caller-supplied headers on
top with `dict.update`. -/
def getHeaders (st : ClientState) (additional_headers : Option Dict)
    (skip_auth : Bool) : Dict :=
  let headers : Dict := [("Accept", "application/json")]
  let headers :=
    if !skip_auth then
      pyDictSet headers "Authorization" ("Bearer " ++ tokenRepr st.token)
    else headers
  match additional_headers with
  | some a => pyDictUpdate headers a
  | none => headers

/-- One HTTP request as issued on the wire: method, endpoint, the final
header dict, and (for the theorems) the token the client held at the
moment of sending. -/
structure Request where
  method : String
  endpoint : String
  headers : Dict
  tokenAtSend : Option String

/-- What the source returns from a transport call: `r.json()` (a
decoded body), the `{'status': code}` dict of the body-less DELETE
success path, or Python `None` (the fall-through of a successful
DELETE retry). -/
inductive RespVal where
  | json (body : String)
  | statusDict (code : Nat)
  | pynone

/-- Result of one logical transport call: the value returned or
exception raised, the final client state, and the requests issued (in
order). -/
structure CallOutcome where
  result : Except PyErr RespVal
  state : ClientState
  sent : List Request

/-- `AbstractClient._send_get_request` (abstract_client.py lines
29-51).  Ensure-token, send, classify: 2xx/3xx returns `r.json()`; on
an HTTP error with a configured `refresh_token`, remaining retries and
status 401/403, renew and recurse with one fewer retry — the source
does NOT return the recursive result (line 48 lacks a `return`), so
after a successful retry the CURRENT (failed) response's `r.json()` is
returned; an exception raised by the recursion propagates. -/
def sendGet (endpoint : String) (retries : Nat) (st : ClientState)
    (responses : List HttpResp) : CallOutcome :=
  let st := if st.token.isNone && st.refreshToken.isSome then renew st else st
  let headers := getHeaders st none false
  match responses with
  | [] => ⟨.error .noResponse, st, []⟩
  | r :: rest =>
    let req : Request := ⟨"GET", endpoint, headers, st.token⟩
    if r.status < 400 then ⟨.ok (.json r.body), st, [req]⟩
    else
      match retries with
      | 0 => ⟨.error (.http r.status r.body), st, [req]⟩
      | n + 1 =>
        if st.refreshToken.isSome && (r.status == 401 || r.status == 403) then
          let st := renew st
          let out := sendGet endpoint n st rest
          match out.result with
          | .error e => ⟨.error e, out.state, req :: out.sent⟩
          | .ok _ => ⟨.ok (.json r.body), out.state, req :: out.sent⟩
        else ⟨.error (.http r.status r.body), st, [req]⟩

/-- `AbstractClient._send_body` (abstract_client.py lines 62-93).
Ensure-token (skipped under `skip_auth`), validate the method string,
merge `Content-Type` into the caller headers, build the final header
dict via `_get_headers` (rebinding the local `headers`), send,
classify.  The retry (line 89) passes the REBOUND `headers` — the full
merged dict, `Authorization` included — as the caller-headers argument
of the recursive call, and does not return the recursive result. -/
def sendBody (http_method endpoint payload : String) (headers? : Option Dict)
    (skip_auth : Bool) (retries : Nat) (st : ClientState)
    (responses : List HttpResp) : CallOutcome :=
  let st :=
    if !skip_auth && st.token.isNone && st.refreshToken.isSome then renew st else st
  if !(["POST", "PUT", "PATCH", "DELETE"].contains http_method) then
    ⟨.error (.valueError ("Invalid http method: " ++ http_method)), st, []⟩
  else
    let h := pyDictUpdate (headers?.getD []) [("Content-Type", "application/json")]
    let headers := getHeaders st (some h) skip_auth
    match responses with
    | [] => ⟨.error .noResponse, st, []⟩
    | r :: rest =>
      let req : Request := ⟨http_method, endpoint, headers, st.token⟩
      if r.status < 400 then ⟨.ok (.json r.body), st, [req]⟩
      else
        match retries with
        | 0 => ⟨.error (.http r.status r.body), st, [req]⟩
        | n + 1 =>
          if st.refreshToken.isSome && (r.status == 401 || r.status == 403) then
            let st := renew st
            let out := sendBody http_method endpoint payload (some headers) skip_auth n st rest
            match out.result with
            | .error e => ⟨.error e, out.state, req :: out.sent⟩
            | .ok _ => ⟨.ok (.json r.body), out.state, req :: out.sent⟩
          else ⟨.error (.http r.status r.body), st, [req]⟩

/-- `AbstractClient._send_post_request`: `_send_body('POST', ...)`. -/
def sendPostRequest (endpoint payload : String) (headers? : Option Dict)
    (skip_auth : Bool) (st : ClientState) (responses : List HttpResp) : CallOutcome :=
  sendBody "POST" endpoint payload headers? skip_auth 2 st responses

/-- `AbstractClient._send_put_request` (abstract_client.py lines
56-57): despite its name it calls `_send_body('PATCH', ...)`. -/
def sendPutRequest (endpoint payload : String) (headers? : Option Dict)
    (skip_auth : Bool) (st : ClientState) (responses : List HttpResp) : CallOutcome :=
  sendBody "PATCH" endpoint payload headers? skip_auth 2 st responses

/-- `AbstractClient._send_patch_request`: `_send_body('PATCH', ...)`. -/
def sendPatchRequest (endpoint payload : String) (headers? : Option Dict)
    (skip_auth : Bool) (st : ClientState) (responses : List HttpResp) : CallOutcome :=
  sendBody "PATCH" endpoint payload headers? skip_auth 2 st responses

/-- The body-less branch of `AbstractClient._send_delete_request`
(abstract_client.py lines 98-119): like `_send_get_request` but with
method DELETE, success returning `{'status': r.status_code}`, and a
successful retry falling off the end of the function (Python returns
`None`). -/
def deleteNoBody (endpoint : String) (retries : Nat) (st : ClientState)
    (responses : List HttpResp) : CallOutcome :=
  let st := if st.token.isNone && st.refreshToken.isSome then renew st else st
  let headers := getHeaders st none false
  match responses with
  | [] => ⟨.error .noResponse, st, []⟩
  | r :: rest =>
    let req : Request := ⟨"DELETE", endpoint, headers, st.token⟩
    if r.status < 400 then ⟨.ok (.statusDict r.status), st, [req]⟩
    else
      match retries with
      | 0 => ⟨.error (.http r.status r.body), st, [req]⟩
      | n + 1 =>
        if st.refreshToken.isSome && (r.status == 401 || r.status == 403) then
          let st := renew st
          let out := deleteNoBody endpoint n st rest
          match out.result with
          | .error e => ⟨.error e, out.state, req :: out.sent⟩
          | .ok _ => ⟨.ok .pynone, out.state, req :: out.sent⟩
        else ⟨.error (.http r.status r.body), st, [req]⟩

/-- `AbstractClient._send_delete_request` (abstract_client.py lines
95-119): with a body it delegates to `_send_body('DELETE', ...)`
(with `_send_body`'s own default of 2 retries, the `retries` argument
being unused on that path); without a body it runs the direct DELETE
flow. -/
def sendDeleteRequest (endpoint : String) (body? : Option String) (retries : Nat)
    (st : ClientState) (responses : List HttpResp) : CallOutcome :=
  match body? with
  | some b => sendBody "DELETE" endpoint b none false 2 st responses
  | none => deleteNoBody endpoint retries st responses

/-! ## Claims -/

/-- C1 (code bug evaluation): for a GET or body-bearing request that
receives 401, 401, then 200 with retry budget 2, a renewal credential
configured and a token already held, renewal is invoked exactly twice
and no exception is raised — but because lines 48 and 89 of
abstract_client.py do not `return` the recursive retry's result, the
value handed to the caller is `r.json()` of the FIRST 401 response
("err1"), not the decoded JSON of the successful 200 response
("good"). -/
theorem c1_get_retry_returns_first_401_body :
    (sendGet "groups" 2 ⟨some "tok0", some "NA", 0, fun _ => "fresh"⟩
        [⟨401, "err1"⟩, ⟨401, "err2"⟩, ⟨200, "good"⟩]).result = .ok (.json "err1") ∧
    (sendGet "groups" 2 ⟨some "tok0", some "NA", 0, fun _ => "fresh"⟩
        [⟨401, "err1"⟩, ⟨401, "err2"⟩, ⟨200, "good"⟩]).state.renewCount = 2 ∧
    (sendBody "POST" "groups" "payload" none false 2 ⟨some "tok0", some "NA", 0, fun _ => "fresh"⟩
        [⟨401, "err1"⟩, ⟨401, "err2"⟩, ⟨200, "good"⟩]).result = .ok (.json "err1") ∧
    (sendBody "POST" "groups" "payload" none false 2 ⟨some "tok0", some "NA", 0, fun _ => "fresh"⟩
        [⟨401, "err1"⟩, ⟨401, "err2"⟩, ⟨200, "good"⟩]).state.renewCount = 2 :=
  ⟨rfl, rfl, rfl, rfl⟩

/-- C2: for a GET or body-bearing request that receives three
consecutive 401s with retry budget 2, a renewal credential configured
and a token already held, the call raises the last `HTTPError`
verbatim (status 401 with the third response's body) after exactly 2
token renewals. -/
theorem c2_retry_exhaustion_surfaces_last_401
    (endpoint payload t rt b1 b2 b3 : String) (mint : Nat → String) :
    ((sendGet endpoint 2 ⟨some t, some rt, 0, mint⟩
        [⟨401, b1⟩, ⟨401, b2⟩, ⟨401, b3⟩]).result = .error (.http 401 b3) ∧
     (sendGet endpoint 2 ⟨some t, some rt, 0, mint⟩
        [⟨401, b1⟩, ⟨401, b2⟩, ⟨401, b3⟩]).state.renewCount = 2) ∧
    ((sendBody "POST" endpoint payload none false 2 ⟨some t, some rt, 0, mint⟩
        [⟨401, b1⟩, ⟨401, b2⟩, ⟨401, b3⟩]).result = .error (.http 401 b3) ∧
     (sendBody "POST" endpoint payload none false 2 ⟨some t, some rt, 0, mint⟩
        [⟨401, b1⟩, ⟨401, b2⟩, ⟨401, b3⟩]).state.renewCount = 2) :=
  ⟨⟨rfl, rfl⟩, ⟨rfl, rfl⟩⟩

/-- C6: the add-members envelope for group "team-x", stem "ORG:apps"
and members ["alice", "bob"] serializes with
`WsRestAddMemberRequest.wsGroupLookup.groupName = "ORG:apps:team-x"`,
exactly the two subject lookups `{"subjectIdentifier": "alice"}` and
`{"subjectIdentifier": "bob"}` in that order, and
`replaceAllExisting = "F"`. -/
theorem c6_add_members_envelope :
    add_members_to_group_payload "ORG:apps" "team-x" ["alice", "bob"] =
      .ok (Json.obj [("WsRestAddMemberRequest", Json.obj
        [("wsGroupLookup", Json.obj [("groupName", Json.str "ORG:apps:team-x")]),
         ("subjectLookups", Json.arr
           [Json.obj [("subjectIdentifier", Json.str "alice")],
            Json.obj [("subjectIdentifier", Json.str "bob")]]),
         ("replaceAllExisting", Json.str "F")])]) :=
  rfl

/-- C8 (code bug evaluation): `get_users_by_id` raises the documented
`ValueError` when fewer subjects resolve than were requested, but
`get_users_by_username` never reaches its count check: line 383 of
grouper_client.py reads the unbound name `member_ids` (the parameter is
`member_uids`), so every call that gets a response — here a fully
successful single-member resolution — raises `NameError` instead of
returning, contradicting the function's own docstring
(`:raises ValueError: If not all members are found in Grouper.`). -/
theorem c8_batch_user_resolution :
    get_users_by_username ["alice"]
        [⟨"a-id", "SUCCESS", some [String.toList "Person A (alice999)"]⟩] =
      .error (.nameError "member_ids") ∧
    get_users_by_id ["u1", "u2"]
        [⟨"u1", "SUCCESS", some [String.toList "Person One (uone01)"]⟩] =
      .error (.valueError "Not all members were found in grouper") :=
  ⟨rfl, rfl⟩

/-- A `SubjectLookup` built with a non-empty `subjectIdentifier` alone
validates successfully. -/
theorem mkSubjectLookup_identifier {s : String} (hs : s ≠ "") :
    mkSubjectLookup (some s) none = .ok ⟨some s, none⟩ := by
  simp [mkSubjectLookup, pyTruthy, hs]

/-- C3: a `SubjectLookup` constructed with neither field raises a
`ValidationError`; with exactly one of the two fields set to a
non-empty string it validates; and the same holds through envelope
construction (shown for the add-members envelope, whose per-member
lookups are built by the same `SubjectLookup` validator). -/
theorem c3_subject_lookup_requires_identifier :
    (mkSubjectLookup none none =
      .error (.validationError "Either subjectIdentifier or subjectId must be provided")) ∧
    (∀ s : String, s ≠ "" → mkSubjectLookup (some s) none = .ok ⟨some s, none⟩) ∧
    (∀ s : String, s ≠ "" → mkSubjectLookup none (some s) = .ok ⟨none, some s⟩) ∧
    (∀ stem g m : String, m ≠ "" →
      add_members_to_group_payload stem g [m] =
        .ok (Json.obj [("WsRestAddMemberRequest", Json.obj
          [("wsGroupLookup", Json.obj
             [("groupName", Json.str (get_qualified_groupname stem g))]),
           ("subjectLookups", Json.arr [Json.obj [("subjectIdentifier", Json.str m)]]),
           ("replaceAllExisting", Json.str "F")])])) ∧
    (∀ stem g : String, add_members_to_group_payload stem g [""] =
      .error (.validationError "Either subjectIdentifier or subjectId must be provided")) := by
  refine ⟨rfl, fun s hs => mkSubjectLookup_identifier hs,
    fun s hs => by simp [mkSubjectLookup, pyTruthy, hs], fun stem g m hm => ?_, fun stem g => rfl⟩
  simp [add_members_to_group_payload, List.mapM.loop, mkSubjectLookup_identifier hm,
    WsRestAddMemberRequest.dump, WsGroupLookup.dump, SubjectLookup.dump, optField, serializeBool]

/-- Witness for C3 at the concrete lookup `{"subjectIdentifier": "alice"}`. -/
theorem c3_witness :
    mkSubjectLookup (some "alice") none = .ok ⟨some "alice", none⟩ :=
  c3_subject_lookup_requires_identifier.2.1 "alice" (by decide)

/-- The scan of `extract_username` finds nothing when every element
with both parentheses encloses at most 2 characters between them. -/
theorem extractLoop_eq_none (l : List (List Char))
    (h : ∀ s ∈ l, (s.contains '(' && s.contains ')') = true →
      (parenSlice s).length ≤ 2) :
    extractLoop l = none := by
  induction l with
  | nil => rfl
  | cons s rest ih =>
    have hrest : extractLoop rest = none :=
      ih (fun t ht hp => h t (List.mem_cons_of_mem s ht) hp)
    by_cases hp : (s.contains '(' && s.contains ')') = true
    · have hle := h s (List.mem_cons_self s rest) hp
      simp only [extractLoop, hp, if_true]
      rw [if_neg (by omega)]
      exact hrest
    · simp only [extractLoop, if_neg hp]
      exact hrest

/-- C7: `extract_username` returns "edover02" for
`["Eileen Dover (edover02)"]`; returns `None` for any list whose every
element's parentheses enclose at most 2 characters (the slice between
the first `(` and the first `)`); and returns `None` for any list none
of whose elements contains a parenthesis. -/
theorem c7_extract_username :
    (extract_username (some [String.toList "Eileen Dover (edover02)"]) =
      some (String.toList "edover02")) ∧
    (∀ l : List (List Char),
      (∀ s ∈ l, (s.contains '(' && s.contains ')') = true →
        (parenSlice s).length ≤ 2) →
      extract_username (some l) = none) ∧
    (∀ l : List (List Char),
      (∀ s ∈ l, s.contains '(' = false ∧ s.contains ')' = false) →
      extract_username (some l) = none) := by
  refine ⟨by decide, fun l h => extractLoop_eq_none l h, fun l h => ?_⟩
  refine extractLoop_eq_none l (fun s hs hp => ?_)
  rw [(h s hs).1] at hp
  simp at hp

/-- Witness for C7 on the list `["ab (x)", "nobrackets"]`: every
element's parentheses enclose at most 2 characters, so the scan
returns `None`. -/
theorem c7_witness :
    extract_username (some [String.toList "ab (x)", String.toList "nobrackets"]) = none :=
  c7_extract_username.2.1 [String.toList "ab (x)", String.toList "nobrackets"] (by decide)

/-- C4 counterexample: `SubjectLookup` — one of the envelope-layer
models of models.py, listed in `modelsOfModule` — declares no
`model_config`, so pydantic's default `extra='ignore'` applies:
constructing it with the unknown field name "mystery" succeeds, and
"mystery" is silently dropped from the retained field set rather than
raising a `ValidationError`. -/
theorem c4_counterexample_subject_lookup_ignores_extra :
    (⟨"SubjectLookup", ["subjectIdentifier", "subjectId"], .ignore⟩ : ModelFields)
        ∈ modelsOfModule ∧
    validateKeys ⟨"SubjectLookup", ["subjectIdentifier", "subjectId"], .ignore⟩
        ["subjectIdentifier", "mystery"] = .ok ["subjectIdentifier"] := by
  exact ⟨by decide, rfl⟩

/-- C4 amended: every model of models.py other than `SubjectLookup`
declares `extra='forbid'` and rejects any unknown field name with a
`ValidationError`; `SubjectLookup` alone uses pydantic's default
`extra='ignore'` and silently drops unknown fields from its retained
field set. -/
theorem c4_extra_field_policy :
    (∀ m ∈ modelsOfModule, m.name ≠ "SubjectLookup" → m.extra = .forbid) ∧
    (∀ m ∈ modelsOfModule, m.extra = .forbid → ∀ (keys : List String) (k : String),
      k ∈ keys → k ∉ m.declared →
      validateKeys m keys = .error (.validationError "Extra inputs are not permitted")) ∧
    (∀ keys : List String,
      validateKeys ⟨"SubjectLookup", ["subjectIdentifier", "subjectId"], .ignore⟩ keys =
        .ok (keys.filter (fun k => ["subjectIdentifier", "subjectId"].contains k))) := by
  refine ⟨by decide, fun m _ hforbid keys k hk hnd => ?_, fun keys => rfl⟩
  have hall : keys.all (fun k => m.declared.contains k) = false := by
    rw [List.all_eq_false]
    exact ⟨k, hk, by simpa using hnd⟩
  simp [validateKeys, hforbid, hall]
  exact ⟨k, hk, hnd⟩

/-- Witness for C4 at the `WsRestAddMemberRequest` model with the
unknown key "bogus". -/
theorem c4_witness :
    validateKeys ⟨"WsRestAddMemberRequest",
        ["wsGroupLookup", "subjectLookups", "replaceAllExisting"], .forbid⟩
      ["wsGroupLookup", "bogus"] =
      .error (.validationError "Extra inputs are not permitted") :=
  c4_extra_field_policy.2.1
    ⟨"WsRestAddMemberRequest", ["wsGroupLookup", "subjectLookups", "replaceAllExisting"], .forbid⟩
    (by decide) rfl ["wsGroupLookup", "bogus"] "bogus" (by decide) (by decide)

/-- Membership in a single `exclude_unset` field slot. -/
theorem mem_optField {p : String × Json} {k : String} {v : Option Json} :
    p ∈ optField k v ↔ ∃ j, v = some j ∧ p = (k, j) := by
  cases v with
  | none => simp [optField]
  | some j => simp [optField]

/-- C5: in the serialized form of every request envelope, every
boolean-bearing field (`enabled`, `ascending`, `includeGroupDetail`,
`includeSubjectDetail`, `replaceAllExisting`) carries exactly the
string "T" or the string "F" — never a native JSON boolean or any
other token. -/
theorem c5_boolean_fields_serialize_T_or_F :
    (∀ (f : WsQueryFilter) (v : Json),
      ("enabled", v) ∈ f.dump → v = .str "T" ∨ v = .str "F") ∧
    (∀ (f : WsQueryFilter) (v : Json),
      ("ascending", v) ∈ f.dump → v = .str "T" ∨ v = .str "F") ∧
    (∀ (r : WsRestFindGroupsRequest) (v : Json),
      ("includeGroupDetail", v) ∈ r.dump → v = .str "T" ∨ v = .str "F") ∧
    (∀ (r : WsRestGetMembersRequest) (v : Json),
      ("includeSubjectDetail", v) ∈ r.dump → v = .str "T" ∨ v = .str "F") ∧
    (∀ (r : WsRestGetSubjectsRequest) (v : Json),
      ("includeSubjectDetail", v) ∈ r.dump → v = .str "T" ∨ v = .str "F") ∧
    (∀ (r : WsRestAddMemberRequest) (v : Json),
      ("replaceAllExisting", v) ∈ r.dump → v = .str "T" ∨ v = .str "F") := by
  refine ⟨fun f v h => ?_, fun f v h => ?_, fun r v h => ?_,
    fun r v h => ?_, fun r v h => ?_, fun r v h => ?_⟩
  · simp [WsQueryFilter.dump, mem_optField, Prod.mk.injEq] at h
    rcases h with ⟨-, rfl⟩ | ⟨-, rfl⟩
    · right; rfl
    · left; rfl
  · simp [WsQueryFilter.dump, mem_optField, Prod.mk.injEq] at h
    rcases h with ⟨-, rfl⟩ | ⟨-, rfl⟩
    · right; rfl
    · left; rfl
  · simp [WsRestFindGroupsRequest.dump, mem_optField, Prod.mk.injEq] at h
    rcases h with ⟨-, rfl⟩ | ⟨-, rfl⟩
    · right; rfl
    · left; rfl
  · simp [WsRestGetMembersRequest.dump, Prod.mk.injEq] at h
    subst h
    cases hb : r.includeSubjectDetail
    · right; rfl
    · left; rfl
  · simp [WsRestGetSubjectsRequest.dump, Prod.mk.injEq] at h
    subst h
    cases hb : r.includeSubjectDetail
    · right; rfl
    · left; rfl
  · simp [WsRestAddMemberRequest.dump, Prod.mk.injEq] at h
    subst h
    cases hb : r.replaceAllExisting
    · right; rfl
    · left; rfl

/-- Witness for C5 at a concrete filter with `enabled=True`: its
serialized `enabled` value "T" is one of the two permitted tokens. -/
theorem c5_witness :
    Json.str "T" = Json.str "T" ∨ Json.str "T" = Json.str "F" :=
  c5_boolean_fields_serialize_T_or_F.1
    { queryFilterType := "FIND_BY_STEM_NAME", enabled := some true }
    (Json.str "T") (by simp [WsQueryFilter.dump, optField, serializeBool])

/-- `String.append` is left-cancellative (used to compare bearer
headers). -/
theorem string_append_left_cancel {p a b : String} (h : p ++ a = p ++ b) :
    a = b := by
  have hd := congrArg String.data h
  simp [String.data_append] at hd
  exact String.ext hd

/-- C9: when `_send_body` retries after a 401, the recursive call
receives the already-merged header dict (whose `Authorization` entry
holds the pre-renewal token), and because `_get_headers` applies
caller-supplied headers with `dict.update` AFTER setting the fresh
token, the retried request goes out with `Authorization: Bearer <old
token>` even though the client now holds the freshly minted token. -/
theorem c9_stale_token_on_retry
    (endpoint payload t rt b1 b2 : String) (mint : Nat → String)
    (hfresh : mint 0 ≠ t) :
    ∃ req1 req2 : Request,
      (sendBody "POST" endpoint payload none false 2 ⟨some t, some rt, 0, mint⟩
        [⟨401, b1⟩, ⟨200, b2⟩]).sent = [req1, req2] ∧
      pyDictGet req1.headers "Authorization" = some ("Bearer " ++ t) ∧
      pyDictGet req2.headers "Authorization" = some ("Bearer " ++ t) ∧
      req2.tokenAtSend = some (mint 0) ∧
      pyDictGet req2.headers "Authorization" ≠ some ("Bearer " ++ mint 0) := by
  refine ⟨_, _, rfl, rfl, rfl, rfl, ?_⟩
  intro hcontra
  have : "Bearer " ++ t = "Bearer " ++ mint 0 := by
    have := Option.some.inj hcontra
    simpa using this
  exact hfresh (string_append_left_cancel this).symm

/-- Witness for C9 with a concrete old token "oldtok" and fresh-token
supply constantly "newtok". -/
theorem c9_witness :
    ∃ req1 req2 : Request,
      (sendBody "POST" "groups" "pl" none false 2
        ⟨some "oldtok", some "NA", 0, fun _ => "newtok"⟩
        [⟨401, "e1"⟩, ⟨200, "ok"⟩]).sent = [req1, req2] ∧
      pyDictGet req1.headers "Authorization" = some ("Bearer " ++ "oldtok") ∧
      pyDictGet req2.headers "Authorization" = some ("Bearer " ++ "oldtok") ∧
      req2.tokenAtSend = some ((fun _ => "newtok") 0) ∧
      pyDictGet req2.headers "Authorization" ≠ some ("Bearer " ++ (fun _ => "newtok") 0) :=
  c9_stale_token_on_retry "groups" "pl" "oldtok" "NA" "e1" "ok"
    (fun _ => "newtok") (by decide)

/-- Every request issued by `_send_get_request` carries the method
"GET". -/
theorem sendGet_sent_method (endpoint : String) (retries : Nat) (st : ClientState)
    (responses : List HttpResp) :
    ∀ req ∈ (sendGet endpoint retries st responses).sent, req.method = "GET" := by
  induction retries generalizing st responses with
  | zero =>
    intro req hreq
    unfold sendGet at hreq
    cases responses with
    | nil => dsimp only at hreq; simp at hreq
    | cons r rest =>
      dsimp only at hreq
      repeat' split at hreq
      all_goals simp at hreq
      all_goals (subst hreq; rfl)
  | succ n ih =>
    intro req hreq
    unfold sendGet at hreq
    cases responses with
    | nil => dsimp only at hreq; simp at hreq
    | cons r rest =>
      dsimp only at hreq
      repeat' split at hreq
      all_goals simp at hreq
      all_goals
        first
        | (subst hreq; rfl)
        | (rcases hreq with rfl | hmem
           · rfl
           · exact ih _ _ req hmem)

/-- Every request issued by `_send_body` carries exactly the method
string it was called with. -/
theorem sendBody_sent_method (http_method endpoint payload : String)
    (headers? : Option Dict) (skip_auth : Bool) (retries : Nat)
    (st : ClientState) (responses : List HttpResp) :
    ∀ req ∈ (sendBody http_method endpoint payload headers? skip_auth retries st responses).sent,
      req.method = http_method := by
  induction retries generalizing headers? st responses with
  | zero =>
    intro req hreq
    unfold sendBody at hreq
    cases responses with
    | nil =>
      dsimp only at hreq
      repeat' split at hreq
      all_goals simp at hreq
    | cons r rest =>
      dsimp only at hreq
      repeat' split at hreq
      all_goals simp at hreq
      all_goals (subst hreq; rfl)
  | succ n ih =>
    intro req hreq
    unfold sendBody at hreq
    cases responses with
    | nil =>
      dsimp only at hreq
      repeat' split at hreq
      all_goals simp at hreq
    | cons r rest =>
      dsimp only at hreq
      repeat' split at hreq
      all_goals simp at hreq
      all_goals
        first
        | (subst hreq; rfl)
        | (rcases hreq with rfl | hmem
           · rfl
           · exact ih _ _ _ req hmem)

/-- Every request issued by the body-less DELETE flow carries the
method "DELETE". -/
theorem deleteNoBody_sent_method (endpoint : String) (retries : Nat)
    (st : ClientState) (responses : List HttpResp) :
    ∀ req ∈ (deleteNoBody endpoint retries st responses).sent, req.method = "DELETE" := by
  induction retries generalizing st responses with
  | zero =>
    intro req hreq
    unfold deleteNoBody at hreq
    cases responses with
    | nil => dsimp only at hreq; simp at hreq
    | cons r rest =>
      dsimp only at hreq
      repeat' split at hreq
      all_goals simp at hreq
      all_goals (subst hreq; rfl)
  | succ n ih =>
    intro req hreq
    unfold deleteNoBody at hreq
    cases responses with
    | nil => dsimp only at hreq; simp at hreq
    | cons r rest =>
      dsimp only at hreq
      repeat' split at hreq
      all_goals simp at hreq
      all_goals
        first
        | (subst hreq; rfl)
        | (rcases hreq with rfl | hmem
           · rfl
           · exact ih _ _ req hmem)

/-- C10: `_send_put_request` and `_send_patch_request` are the same
function — both delegate to `_send_body` with the literal method
'PATCH' — and no code path of the client ever issues the HTTP method
'PUT': every sender's issued requests carry its own verb (GET, POST,
PATCH or DELETE). -/
theorem c10_put_is_patch_and_no_put_issued :
    sendPutRequest = sendPatchRequest ∧
    (∀ (e p : String) (h? : Option Dict) (sk : Bool) (st : ClientState)
        (rs : List HttpResp),
      ∀ req ∈ (sendPutRequest e p h? sk st rs).sent, req.method = "PATCH") ∧
    (∀ (e p : String) (h? : Option Dict) (sk : Bool) (st : ClientState)
        (rs : List HttpResp),
      ∀ req ∈ (sendPostRequest e p h? sk st rs).sent, req.method ≠ "PUT") ∧
    (∀ (e p : String) (h? : Option Dict) (sk : Bool) (st : ClientState)
        (rs : List HttpResp),
      ∀ req ∈ (sendPatchRequest e p h? sk st rs).sent, req.method ≠ "PUT") ∧
    (∀ (e : String) (n : Nat) (st : ClientState) (rs : List HttpResp),
      ∀ req ∈ (sendGet e n st rs).sent, req.method ≠ "PUT") ∧
    (∀ (e : String) (b? : Option String) (n : Nat) (st : ClientState)
        (rs : List HttpResp),
      ∀ req ∈ (sendDeleteRequest e b? n st rs).sent, req.method ≠ "PUT") := by
  refine ⟨rfl, ?_, ?_, ?_, ?_, ?_⟩
  · intro e p h? sk st rs req hreq
    exact sendBody_sent_method "PATCH" e p h? sk 2 st rs req hreq
  · intro e p h? sk st rs req hreq
    rw [sendBody_sent_method "POST" e p h? sk 2 st rs req hreq]
    decide
  · intro e p h? sk st rs req hreq
    rw [sendBody_sent_method "PATCH" e p h? sk 2 st rs req hreq]
    decide
  · intro e n st rs req hreq
    rw [sendGet_sent_method e n st rs req hreq]
    decide
  · intro e b? n st rs req hreq
    cases b? with
    | some b =>
      rw [sendBody_sent_method "DELETE" e b none false 2 st rs req hreq]
      decide
    | none =>
      rw [deleteNoBody_sent_method e n st rs req hreq]
      decide

/-- Witness for C10: the one request of a successful
`_send_put_request` call goes out with method "PATCH". -/
theorem c10_witness :
    (⟨"PATCH", "groups",
      [("Accept", "application/json"), ("Authorization", "Bearer tok"),
       ("Content-Type", "application/json")], some "tok"⟩ : Request).method = "PATCH" :=
  c10_put_is_patch_and_no_put_issued.2.1 "groups" "pl" none false
    ⟨some "tok", some "NA", 0, fun _ => "fresh"⟩ [⟨200, "ok"⟩]
    ⟨"PATCH", "groups",
      [("Accept", "application/json"), ("Authorization", "Bearer tok"),
       ("Content-Type", "application/json")], some "tok"⟩
    (List.Mem.head _)
